import Mathlib

/-!
# Formal model of the tezos-delegation-service core

A shallow embedding, in Lean 4, of the core of the `tezos-delegation-service`
Go repository: the persistence layer (`internal/store`), the upstream client's
retry loop (`internal/tzkt`), the sync engine (`internal/poller`) and the read
endpoint's handler (`internal/api`).

Modelling conventions:
* `time.Time` values are modelled as `Nat`: the number of seconds since
  `0001-01-01T00:00:00Z` (proleptic Gregorian).  The Go zero time and the
  Postgres `'0001-01-01'` sentinel are both the value `0`; `t.IsZero()` is
  `t = 0` and `t.Before(u)` is `t < u`.
* `int64` quantities (amounts) are `Int`; identifiers, levels and sizes are
  `Nat` where the code only ever uses non-negative values.
* Database effects are made explicit: the store state is a `DB` value and
  every operation is a pure function of it.  SQL statements are modelled by
  their documented semantics (`ON CONFLICT ... DO NOTHING`, `ORDER BY`,
  `LIMIT`/`OFFSET`, aggregate `MAX`/`COALESCE`).
* Failures that originate outside the modelled state (connection loss while
  executing a row insert, network errors of an HTTP attempt) are supplied as
  explicit oracles (`fail` predicates, attempt-result streams).
-/

namespace TezosDelegation

/-! ## Calendar: the derived `year` column

`internal/store` computes the `year` column at write time with
`EXTRACT(YEAR FROM $2::TIMESTAMPTZ)::INT`.  We model that with the standard
civil-calendar computation of the Gregorian year from a day number
(days relative to 1970-01-01); Lean's `Int` division is floor division,
which is exactly what the era/year-of-era decomposition needs. -/

/-- Gregorian calendar year of day `z`, where `z` counts days since
1970-01-01 (negative for earlier days). -/
def civilYearFromDays (z : Int) : Int :=
  let z2 := z + 719468
  let era := z2 / 146097
  let doe := z2 - era * 146097
  let yoe := (doe - doe / 1460 + doe / 36524 - doe / 146096) / 365
  let y := yoe + era * 400
  let doy := doe - (365 * yoe + yoe / 4 - yoe / 100)
  let mp := (5 * doy + 2) / 153
  let m := if mp < 10 then mp + 3 else mp - 9
  if m ≤ 2 then y + 1 else y

/-- The year column derived from a timestamp (seconds since 0001-01-01 UTC),
modelling `EXTRACT(YEAR FROM timestamp)`.  `719162` is the number of days
from 0001-01-01 to 1970-01-01. -/
def extractYear (ts : Nat) : Int :=
  civilYearFromDays ((ts : Int) / 86400 - 719162)

/-! ## Data model -/

/-- `tzkt.Delegation`: one delegation operation as decoded from the upstream
TzKT API (`internal/tzkt`).  `sender` is the delegator's address
(`Sender.Address` in Go). -/
structure TzktDelegation where
  id : Nat
  level : Nat
  timestamp : Nat
  amount : Int
  sender : String
  deriving Repr, DecidableEq

/-- `store.InsertDelegation`: the row content handed to `BulkInsert`. -/
structure InsertDelegation where
  tzktId : Nat
  timestamp : Nat
  amount : Int
  delegator : String
  level : Nat
  deriving Repr, DecidableEq

/-- One persisted row of the `delegations` table: surrogate key `id`
(`BIGSERIAL PRIMARY KEY`), unique `tzktId`, the event fields, and the
derived `year` column. -/
structure PersistedRow where
  id : Nat
  tzktId : Nat
  timestamp : Nat
  amount : Int
  delegator : String
  level : Nat
  year : Int
  deriving Repr, DecidableEq

/-- `store.Delegation`: the projection returned by `GetPage`
(`SELECT timestamp, amount, delegator, level`). -/
structure Delegation where
  timestamp : Nat
  amount : Int
  delegator : String
  level : Nat
  deriving Repr, DecidableEq

/-- The state of the `delegations` table: its rows, in insertion order, plus
the sequence counter backing the `BIGSERIAL` surrogate key. -/
structure DB where
  rows : List PersistedRow
  nextId : Nat
  deriving Repr, DecidableEq

/-- The empty store. -/
def DB.empty : DB := ⟨[], 0⟩

/-! ## Persistence gateway: `delegationStore.BulkInsert` -/

/-- Whether a row with the given upstream identifier already exists —
the `ON CONFLICT (tzkt_id)` condition. -/
def DB.hasTzktId (db : DB) (tid : Nat) : Bool :=
  db.rows.any (fun r => r.tzktId == tid)

/-- Executing the prepared statement
`INSERT INTO delegations (...) VALUES (...) ON CONFLICT (tzkt_id) DO NOTHING`
for one row: a row whose `tzkt_id` already exists is skipped without error;
otherwise the row is appended with the next surrogate id and the year derived
from its timestamp. -/
def DB.execInsert (db : DB) (r : InsertDelegation) : DB :=
  if db.hasTzktId r.tzktId then db
  else
    { rows := db.rows ++
        [{ id := db.nextId, tzktId := r.tzktId, timestamp := r.timestamp,
           amount := r.amount, delegator := r.delegator, level := r.level,
           year := extractYear r.timestamp }],
      nextId := db.nextId + 1 }

/-- The body of `BulkInsert`'s row loop inside the transaction.  `fail`
is the oracle for failures of `stmt.ExecContext` that are not duplicate-key
conflicts (conflicts are `DO NOTHING`, hence never errors): `none` means the
loop returned an error and the transaction will be rolled back. -/
def insertLoop (fail : InsertDelegation → Bool) :
    DB → List InsertDelegation → Option DB
  | db, [] => some db
  | db, r :: rest =>
      if fail r then none else insertLoop fail (db.execInsert r) rest

/-- Result of `BulkInsert`: the committed store state, whether the call
returned without error, and whether a transaction was opened. -/
structure BulkResult where
  db : DB
  ok : Bool
  txOpened : Bool
  deriving Repr, DecidableEq

/-- `delegationStore.BulkInsert`: an empty batch returns `nil` immediately
without `BeginTx`; otherwise the rows are inserted inside one transaction
and committed, and any per-row failure returns the error after the deferred
`tx.Rollback()`, leaving the committed state unchanged. -/
def bulkInsert (db : DB) (batch : List InsertDelegation)
    (fail : InsertDelegation → Bool) : BulkResult :=
  if batch.isEmpty then ⟨db, true, false⟩
  else
    match insertLoop fail db batch with
    | some db2 => ⟨db2, true, true⟩
    | none => ⟨db, false, true⟩

/-! ## Persistence gateway: `delegationStore.GetPage`

The query is `SELECT timestamp, amount, delegator, level FROM delegations
[WHERE year = $1] ORDER BY timestamp DESC, id DESC LIMIT .. OFFSET ..`.
We model `ORDER BY` as sorting with the comparator below, and
`LIMIT`/`OFFSET` as `take`/`drop` after the sort. -/

/-- `ORDER BY timestamp DESC, id DESC`: `a` may precede `b` iff `a`'s
timestamp is larger, or the timestamps are equal and `a`'s surrogate id is
not smaller. -/
def rowLe (a b : PersistedRow) : Bool :=
  b.timestamp < a.timestamp || (a.timestamp == b.timestamp && b.id ≤ a.id)

/-- Insert one row into a list already ordered by `rowLe`. -/
def insertRowSorted (r : PersistedRow) : List PersistedRow → List PersistedRow
  | [] => [r]
  | x :: xs => if rowLe r x then r :: x :: xs else x :: insertRowSorted r xs

/-- Sort rows by `ORDER BY timestamp DESC, id DESC` (insertion sort). -/
def sortRows : List PersistedRow → List PersistedRow
  | [] => []
  | x :: xs => insertRowSorted x (sortRows xs)

/-- The rows selected by `GetPage` before the column projection: optional
`WHERE year = $1` filter, then `ORDER BY timestamp DESC, id DESC`, then
`OFFSET`, then `LIMIT`. -/
def getPageRows (db : DB) (year : Option Int) (limit offset : Nat) :
    List PersistedRow :=
  let sel := match year with
    | some y => db.rows.filter (fun r => r.year == y)
    | none => db.rows
  ((sortRows sel).drop offset).take limit

/-- `delegationStore.GetPage`: the selected rows projected to
`(timestamp, amount, delegator, level)`. -/
def getPage (db : DB) (year : Option Int) (limit offset : Nat) :
    List Delegation :=
  (getPageRows db year limit offset).map
    (fun r => ⟨r.timestamp, r.amount, r.delegator, r.level⟩)

/-! ## Persistence gateway: `delegationStore.GetLastSeen` -/

/-- `SELECT COALESCE(MAX(timestamp), '0001-01-01'), COALESCE(MAX(level), 0)`:
the maximum timestamp (the zero time `0` when the table is empty) and the
maximum level (`0` when empty). -/
def getLastSeen (db : DB) : Nat × Nat :=
  (db.rows.foldr (fun r m => max r.timestamp m) 0,
   db.rows.foldr (fun r m => max r.level m) 0)

/-! ## Sync engine: `Poller` (`internal/poller`) -/

/-- The fields of `poller.Config` that the loop logic reads.  Durations are
in seconds, timestamps in seconds since 0001-01-01 UTC (so
`GenesisStart.IsZero()` is `genesisStart = 0`). -/
structure PollerConfig where
  batchSize : Nat
  pollInterval : Nat
  genesisStart : Nat
  maxBackoff : Nat
  deriving Repr, DecidableEq

/-- The watermark clamp at the top of `Poller.syncOnce`:
`if lastTs.IsZero() || (!GenesisStart.IsZero() && lastTs.Before(GenesisStart))
{ lastTs = GenesisStart }`. -/
def clampSince (genesisStart lastTs : Nat) : Nat :=
  if lastTs = 0 ∨ (¬genesisStart = 0 ∧ lastTs < genesisStart) then genesisStart
  else lastTs

/-- The timestamp `syncOnce` passes to `Client.FetchDelegations`: the stored
watermark clamped by `clampSince`. -/
def syncSince (cfg : PollerConfig) (db : DB) : Nat :=
  clampSince cfg.genesisStart (getLastSeen db).1

/-- The batch `syncOnce` builds from the fetched delegations: events with an
empty `Sender.Address` are skipped, the rest are mapped to
`store.InsertDelegation` in order. -/
def buildBatch (ds : List TzktDelegation) : List InsertDelegation :=
  ds.filterMap (fun d =>
    if d.sender = "" then none
    else some ⟨d.id, d.timestamp, d.amount, d.sender, d.level⟩)

/-- The count `n` returned by a successful `syncOnce` given the fetched
events: `0` (no write) when the fetch returned nothing, otherwise the length
of the filtered batch handed to `BulkInsert`. -/
def syncOnceCount (ds : List TzktDelegation) : Nat :=
  if ds.isEmpty then 0 else (buildBatch ds).length

/-- The store state after a successful `syncOnce` given the fetched events:
unchanged when the fetch returned nothing, otherwise the result of
`BulkInsert` of the filtered batch. -/
def syncOnceDB (db : DB) (ds : List TzktDelegation)
    (fail : InsertDelegation → Bool) : DB :=
  if ds.isEmpty then db else (bulkInsert db (buildBatch ds) fail).db

/-- `Poller.Run`'s post-success decision: after `backoff` is reset, the loop
`continue`s with no sleep iff `n == p.cfg.BatchSize`; otherwise it sleeps
the full poll interval. -/
def sleepsAfterSuccess (cfg : PollerConfig) (n : Nat) : Bool :=
  !(n == cfg.batchSize)

/-- One iteration outcome of `Poller.Run`: `syncOnce` returned an error, or
returned `n` successfully. -/
inductive IterOutcome where
  | fail
  | success (n : Nat)
  deriving Repr, DecidableEq

/-- The observable loop state of `Poller.Run`: the current backoff duration,
the sleeps performed so far (in order), and how many iterations have run. -/
structure RunState where
  backoff : Nat
  sleeps : List Nat
  iterations : Nat
  deriving Repr, DecidableEq

/-- `Poller.Run` entering the loop: `backoff := p.cfg.PollInterval`. -/
def initRunState (cfg : PollerConfig) : RunState :=
  ⟨cfg.pollInterval, [], 0⟩

/-- One iteration of `Poller.Run`'s loop body.  On error: sleep the current
backoff, then double it if it is still below the maximum, capping at the
maximum, and `continue`.  On success: reset backoff to the poll interval,
`continue` immediately when `n == BatchSize`, otherwise sleep the full poll
interval.  No outcome ends the loop. -/
def runStep (cfg : PollerConfig) (st : RunState) : IterOutcome → RunState
  | .fail =>
      { backoff :=
          if st.backoff < cfg.maxBackoff then
            min (st.backoff * 2) cfg.maxBackoff
          else st.backoff,
        sleeps := st.sleeps ++ [st.backoff],
        iterations := st.iterations + 1 }
  | .success n =>
      { backoff := cfg.pollInterval,
        sleeps :=
          if n = cfg.batchSize then st.sleeps
          else st.sleeps ++ [cfg.pollInterval],
        iterations := st.iterations + 1 }

/-- `Poller.Run` over a finite prefix of iteration outcomes. -/
def runLoop (cfg : PollerConfig) (outcomes : List IterOutcome)
    (st : RunState) : RunState :=
  outcomes.foldl (runStep cfg) st

/-! ## Upstream client: `client.FetchDelegations` retry loop
(`internal/tzkt`)

The loop makes up to `maxRetries = 3` attempts of `c.http.Do(req)`.  Before
every attempt after the first it sleeps the current backoff (starting at 1
second) and doubles it.  A network-level error or a `429 Too Many Requests`
response causes a retry; any other response (success or not) breaks out of
the loop.  After the loop: a surviving network error is reported as a
request failure; a status `≥ 300` is reported as an unexpected-status fetch
error; otherwise the body is decoded, a malformed payload being a decode
error. -/

/-- What one `c.http.Do(req)` attempt yields: a network-level error, or an
HTTP response with a status code and a body (`none` = payload that fails to
decode). -/
inductive AttemptResult where
  | netErr
  | resp (status : Nat) (body : Option (List TzktDelegation))
  deriving Repr, DecidableEq

/-- The outcome `FetchDelegations` reports to its caller. -/
inductive FetchResult where
  | ok (ds : List TzktDelegation)
  | netFail
  | statusErr (status : Nat)
  | decodeErr
  deriving Repr, DecidableEq

/-- The observable behaviour of one `FetchDelegations` call: its result, the
number of HTTP attempts performed, and the backoff sleeps (in seconds). -/
structure FetchTrace where
  result : FetchResult
  attempts : Nat
  sleeps : List Nat
  deriving Repr, DecidableEq

/-- Classifies the attempt results the loop retries on: network errors and
`429` responses. -/
def retryable : AttemptResult → Bool
  | .netErr => true
  | .resp s _ => s == 429

/-- The retry loop of `FetchDelegations`: `remaining` attempts are left,
`attempt` is the index of the attempt about to run (the Go loop variable),
`backoff` the current backoff.  `f k` is what the `k`-th `Do` call yields. -/
def fetchAux (f : Nat → AttemptResult) :
    Nat → Nat → Nat → List Nat → FetchTrace
  | 0, attempt, _, sleeps => ⟨.netFail, attempt, sleeps⟩
  | remaining + 1, attempt, backoff, sleeps =>
      let sleeps := if 0 < attempt then sleeps ++ [backoff] else sleeps
      let backoff := if 0 < attempt then backoff * 2 else backoff
      match f attempt with
      | .netErr =>
          if remaining = 0 then ⟨.netFail, attempt + 1, sleeps⟩
          else fetchAux f remaining (attempt + 1) backoff sleeps
      | .resp s body =>
          if s = 429 then
            if remaining = 0 then ⟨.statusErr 429, attempt + 1, sleeps⟩
            else fetchAux f remaining (attempt + 1) backoff sleeps
          else if 300 ≤ s then ⟨.statusErr s, attempt + 1, sleeps⟩
          else match body with
            | none => ⟨.decodeErr, attempt + 1, sleeps⟩
            | some ds => ⟨.ok ds, attempt + 1, sleeps⟩

/-- `client.FetchDelegations` with `maxRetries = 3` and initial backoff one
second, driven by the attempt oracle `f`. -/
def fetchDelegationsModel (f : Nat → AttemptResult) : FetchTrace :=
  fetchAux f 3 0 1 []

/-! ## Read endpoint: `Server.handleDelegations` (`internal/api`) -/

/-- Go's `strconv.Atoi`: an optional sign followed by at least one decimal
digit, with the result required to fit in an `int64`; anything else is an
error (`none`). -/
def goAtoiDigits : Option Int → List Char → Option Int
  | acc, [] => acc
  | acc, c :: cs =>
      match acc with
      | none => none
      | some n =>
          if c.isDigit then
            goAtoiDigits (some (n * 10 + ((c.toNat : Int) - 48))) cs
          else none

/-- Parse a string the way `strconv.Atoi` does. -/
def goAtoi (s : String) : Option Int :=
  let (sign, digits) : Int × List Char :=
    match s.data with
    | '+' :: r => (1, r)
    | '-' :: r => (-1, r)
    | r => (1, r)
  if digits.isEmpty then none
  else match goAtoiDigits (some 0) digits with
    | none => none
    | some n =>
        let v := sign * n
        if v < -(2 ^ 63) ∨ (2 ^ 63 - 1 : Int) < v then none else some v

/-- What `handleDelegations` does with a request: reject it with
`400 Bad Request` before touching the store, or query the store with the
given filter, limit and offset and answer `200` with the `data` array.
The `data` field is an `Option` to mirror Go's distinction between a `nil`
slice (JSON `null`) and an allocated slice (JSON array); the handler always
allocates with `make`, i.e. always produces `some`. -/
inductive HandlerOutcome where
  | badRequest (msg : String)
  | ok (year : Option Int) (limit : Nat) (offset : Nat)
      (data : Option (List Delegation))
  deriving Repr, DecidableEq

/-- `Server.handleDelegations`.  Query parameters are given as the strings
`r.URL.Query().Get(..)` returns (`""` when absent).  A present `year` must
parse and be `≥ 2018`; a present `page` must parse and be `> 0`; the store
is then queried with page size 50 and offset `(page-1)*50`. -/
def handleDelegations (db : DB) (yearParam pageParam : String) :
    HandlerOutcome :=
  let yearRes : Except String (Option Int) :=
    if yearParam = "" then .ok none
    else match goAtoi yearParam with
      | none => .error "invalid year"
      | some y => if y < 2018 then .error "invalid year" else .ok (some y)
  match yearRes with
  | .error m => .badRequest m
  | .ok year =>
      let pageRes : Except String Int :=
        if pageParam = "" then .ok 1
        else match goAtoi pageParam with
          | none => .error "invalid page"
          | some p => if p ≤ 0 then .error "invalid page" else .ok p
      match pageRes with
      | .error m => .badRequest m
      | .ok page =>
          let pageSize : Nat := 50
          let offset := ((page - 1) * (pageSize : Int)).toNat
          .ok year pageSize offset (some (getPage db year pageSize offset))

/-! ## Store lemmas -/

theorem hasTzktId_execInsert {db : DB} {tid : Nat} (r : InsertDelegation)
    (h : db.hasTzktId tid = true) : (db.execInsert r).hasTzktId tid = true := by
  unfold DB.execInsert
  split
  · exact h
  · simp only [DB.hasTzktId, List.any_append] at *
    simp [h]

theorem hasTzktId_execInsert_self (db : DB) (r : InsertDelegation) :
    (db.execInsert r).hasTzktId r.tzktId = true := by
  unfold DB.execInsert
  split
  · assumption
  · simp [DB.hasTzktId, List.any_append]

/-- A row whose `tzkt_id` is already present is a conflict no-op. -/
theorem execInsert_conflict_noop {db : DB} {r : InsertDelegation}
    (h : db.hasTzktId r.tzktId = true) : db.execInsert r = db := by
  unfold DB.execInsert
  simp [h]

theorem insertLoop_noFail (fail : InsertDelegation → Bool) :
    ∀ (batch : List InsertDelegation) (db : DB),
    (∀ r ∈ batch, fail r = false) →
    ∃ db2, insertLoop fail db batch = some db2 ∧
      (∀ tid, db.hasTzktId tid = true → db2.hasTzktId tid = true) ∧
      (∀ r ∈ batch, db2.hasTzktId r.tzktId = true)
  | [], db, _ => ⟨db, rfl, fun _ h => h, by simp⟩
  | r :: rest, db, h => by
      have hr : fail r = false := h r (by simp)
      obtain ⟨db2, heq, hpres, hall⟩ :=
        insertLoop_noFail fail rest (db.execInsert r)
          (fun x hx => h x (by simp [hx]))
      refine ⟨db2, by simp [insertLoop, hr, heq], ?_, ?_⟩
      · intro tid htid
        exact hpres tid (hasTzktId_execInsert r htid)
      · intro x hx
        rcases List.mem_cons.mp hx with rfl | hx2
        · exact hpres _ (hasTzktId_execInsert_self db x)
        · exact hall x hx2

theorem insertLoop_allPresent (fail : InsertDelegation → Bool) :
    ∀ (batch : List InsertDelegation) (db : DB),
    (∀ r ∈ batch, fail r = false) →
    (∀ r ∈ batch, db.hasTzktId r.tzktId = true) →
    insertLoop fail db batch = some db
  | [], _, _, _ => rfl
  | r :: rest, db, h, hp => by
      have hr : fail r = false := h r (by simp)
      have hskip : db.execInsert r = db :=
        execInsert_conflict_noop (hp r (by simp))
      simp only [insertLoop, hr, Bool.false_eq_true, if_false, hskip]
      exact insertLoop_allPresent fail rest db
        (fun x hx => h x (by simp [hx])) (fun x hx => hp x (by simp [hx]))

/-- Every row of a state produced by a successful `insertLoop` either was
already present or carries the delegator of some batch row. -/
theorem insertLoop_delegator_origin (fail : InsertDelegation → Bool) :
    ∀ (batch : List InsertDelegation) (db db2 : DB),
    insertLoop fail db batch = some db2 →
    ∀ r ∈ db2.rows, r ∈ db.rows ∨ ∃ b ∈ batch, r.delegator = b.delegator
  | [], db, db2, h => by
      intro r hr
      exact Or.inl (by cases h; exact hr)
  | b :: rest, db, db2, h => by
      intro r hr
      by_cases hf : fail b = true
      · simp [insertLoop, hf] at h
      · simp only [insertLoop, hf, if_neg, Bool.false_eq_true, if_false] at h
        rcases insertLoop_delegator_origin fail rest (db.execInsert b) db2
            h r hr with hin | ⟨b', hb', hd⟩
        · unfold DB.execInsert at hin
          split at hin
          · exact Or.inl hin
          · simp only [List.mem_append, List.mem_singleton] at hin
            rcases hin with hin | rfl
            · exact Or.inl hin
            · exact Or.inr ⟨b, by simp, rfl⟩
        · exact Or.inr ⟨b', by simp [hb'], hd⟩

/-! ## C1, C6, C7 -/

/-- C1: writing the same batch twice through `BulkInsert` leaves the
persisted rows unchanged after the second write; both writes succeed, and a
row whose `tzkt_id` already exists in the store is a silent no-op rather
than an error. -/
theorem bulkInsert_idempotent (db : DB) (batch : List InsertDelegation)
    (fail : InsertDelegation → Bool) (h : ∀ r ∈ batch, fail r = false) :
    (bulkInsert db batch fail).ok = true ∧
    (bulkInsert (bulkInsert db batch fail).db batch fail).db =
      (bulkInsert db batch fail).db ∧
    (bulkInsert (bulkInsert db batch fail).db batch fail).ok = true ∧
    (∀ r : InsertDelegation, db.hasTzktId r.tzktId = true →
      db.execInsert r = db) := by
  have hskip : ∀ r : InsertDelegation, db.hasTzktId r.tzktId = true →
      db.execInsert r = db := fun _ => execInsert_conflict_noop
  by_cases hb : batch.isEmpty
  · refine ⟨?_, ?_, ?_, hskip⟩ <;> simp [bulkInsert, hb]
  · obtain ⟨db2, heq, _, hall⟩ := insertLoop_noFail fail batch db h
    have h1 : bulkInsert db batch fail = ⟨db2, true, true⟩ := by
      simp [bulkInsert, hb, heq]
    have h2 : insertLoop fail db2 batch = some db2 :=
      insertLoop_allPresent fail batch db2 h hall
    rw [h1]
    refine ⟨rfl, ?_, ?_, hskip⟩ <;> simp [bulkInsert, hb, h2]

/-- C6: `BulkInsert` of an empty batch is a success that opens no
transaction, and a failed `BulkInsert` leaves the committed store state
unchanged (the whole batch is rolled back). -/
theorem bulkInsert_empty_noop_and_atomic (db : DB)
    (fail : InsertDelegation → Bool) :
    bulkInsert db [] fail = ⟨db, true, false⟩ ∧
    ∀ batch : List InsertDelegation,
      (bulkInsert db batch fail).ok = false →
      (bulkInsert db batch fail).db = db := by
  refine ⟨rfl, fun batch h => ?_⟩
  by_cases hb : batch.isEmpty
  · simp [bulkInsert, hb] at h
  · cases hm : insertLoop fail db batch with
    | none => simp [bulkInsert, hb, hm]
    | some db2 => simp [bulkInsert, hb, hm] at h

/-- C7: events with an empty delegator address are discarded by `syncOnce`
before persistence: no batch row has an empty delegator, and if every
persisted row had a non-empty delegator, the same holds after the sync
iteration writes the filtered batch. -/
theorem emptyDelegator_never_persisted (ds : List TzktDelegation) (db : DB)
    (fail : InsertDelegation → Bool)
    (hdb : ∀ r ∈ db.rows, ¬r.delegator = "") :
    (∀ b ∈ buildBatch ds, ¬b.delegator = "") ∧
    (∀ r ∈ (syncOnceDB db ds fail).rows, ¬r.delegator = "") := by
  have hb : ∀ b ∈ buildBatch ds, ¬b.delegator = "" := by
    intro b hbm
    simp only [buildBatch, List.mem_filterMap] at hbm
    obtain ⟨d, _, hif⟩ := hbm
    by_cases hd : d.sender = ""
    · simp [hd] at hif
    · simp only [hd, if_neg, if_false] at hif
      cases hif
      exact hd
  refine ⟨hb, ?_⟩
  intro r hr
  unfold syncOnceDB at hr
  split at hr
  · exact hdb r hr
  · unfold bulkInsert at hr
    split at hr
    · exact hdb r hr
    · cases hm : insertLoop fail db (buildBatch ds) with
      | none => simp [hm] at hr; exact hdb r hr
      | some db2 =>
          simp only [hm] at hr
          rcases insertLoop_delegator_origin fail (buildBatch ds) db db2 hm
              r hr with hin | ⟨b, hbm, hd⟩
          · exact hdb r hin
          · rw [hd]
            exact hb b hbm

/-! ## Ordering lemmas for `GetPage` -/

theorem rowLe_iff (a b : PersistedRow) :
    rowLe a b = true ↔
      b.timestamp < a.timestamp ∨
        (a.timestamp = b.timestamp ∧ b.id ≤ a.id) := by
  simp [rowLe]

theorem rowLe_total (a b : PersistedRow) :
    rowLe a b = true ∨ rowLe b a = true := by
  rw [rowLe_iff, rowLe_iff]
  omega

theorem rowLe_trans {a b c : PersistedRow} (h1 : rowLe a b = true)
    (h2 : rowLe b c = true) : rowLe a c = true := by
  rw [rowLe_iff] at h1 h2 ⊢
  omega

theorem mem_insertRowSorted {y r : PersistedRow} :
    ∀ {l : List PersistedRow}, y ∈ insertRowSorted r l ↔ y = r ∨ y ∈ l
  | [] => by simp [insertRowSorted]
  | x :: xs => by
      unfold insertRowSorted
      split
      · simp
      · simp [mem_insertRowSorted (l := xs)]
        tauto

theorem perm_insertRowSorted (r : PersistedRow) :
    ∀ l : List PersistedRow, (insertRowSorted r l).Perm (r :: l)
  | [] => .refl _
  | x :: xs => by
      unfold insertRowSorted
      split
      · exact .refl _
      · exact ((perm_insertRowSorted r xs).cons x).trans (.swap r x xs)

theorem sortRows_perm : ∀ l : List PersistedRow, (sortRows l).Perm l
  | [] => .refl _
  | x :: xs =>
      (perm_insertRowSorted x (sortRows xs)).trans ((sortRows_perm xs).cons x)

theorem pairwise_insertRowSorted {r : PersistedRow} :
    ∀ {l : List PersistedRow},
    l.Pairwise (fun a b => rowLe a b = true) →
    (insertRowSorted r l).Pairwise (fun a b => rowLe a b = true)
  | [], _ => by simp [insertRowSorted]
  | x :: xs, h => by
      obtain ⟨hx, hxs⟩ := List.pairwise_cons.mp h
      unfold insertRowSorted
      split
      · rename_i hrx
        refine List.pairwise_cons.mpr ⟨?_, h⟩
        intro y hy
        rcases List.mem_cons.mp hy with rfl | hy2
        · exact hrx
        · exact rowLe_trans hrx (hx y hy2)
      · rename_i hnrx
        have hxr : rowLe x r = true :=
          (rowLe_total r x).resolve_left hnrx
        refine List.pairwise_cons.mpr ⟨?_, pairwise_insertRowSorted hxs⟩
        intro y hy
        rcases mem_insertRowSorted.mp hy with rfl | hy2
        · exact hxr
        · exact hx y hy2

theorem sortRows_pairwise : ∀ l : List PersistedRow,
    (sortRows l).Pairwise (fun a b => rowLe a b = true)
  | [] => .nil
  | _ :: xs => pairwise_insertRowSorted (sortRows_pairwise xs)

/-- The page slice of any selection with pairwise-distinct surrogate ids is
strictly ordered by `(timestamp DESC, id DESC)`. -/
theorem pageSlice_strict (sel : List PersistedRow) (limit offset : Nat)
    (hids : sel.Pairwise (fun a b => ¬a.id = b.id)) :
    (((sortRows sel).drop offset).take limit).Pairwise
      (fun a b => b.timestamp < a.timestamp ∨
        (a.timestamp = b.timestamp ∧ b.id < a.id)) := by
  have h1 := sortRows_pairwise sel
  have h2 : (sortRows sel).Pairwise (fun a b => ¬a.id = b.id) :=
    ((sortRows_perm sel).pairwise_iff (fun h => fun e => h e.symm)).mpr hids
  have h4 : (sortRows sel).Pairwise
      (fun a b => b.timestamp < a.timestamp ∨
        (a.timestamp = b.timestamp ∧ b.id < a.id)) := by
    refine (h1.and h2).imp ?_
    intro a b ⟨hle, hne⟩
    rw [rowLe_iff] at hle
    omega
  exact List.Pairwise.sublist
    ((List.take_sublist _ _).trans (List.drop_sublist _ _)) h4

/-! ## C8 -/

/-- C8: for every store whose rows carry pairwise-distinct surrogate ids,
`GetPage` returns rows ordered by timestamp descending with surrogate id
descending as tie-break (a strict total order on the returned rows), when a
year is given only rows whose derived `year` column equals it are returned,
and the returned `Delegation`s are exactly the column projection of those
rows. -/
theorem getPage_ordered_and_filtered (db : DB) (year : Option Int)
    (limit offset : Nat)
    (hids : db.rows.Pairwise (fun a b => ¬a.id = b.id)) :
    (getPageRows db year limit offset).Pairwise
      (fun a b => b.timestamp < a.timestamp ∨
        (a.timestamp = b.timestamp ∧ b.id < a.id)) ∧
    (∀ y, year = some y →
      ∀ r ∈ getPageRows db year limit offset, r.year = y) ∧
    getPage db year limit offset =
      (getPageRows db year limit offset).map
        (fun r => ⟨r.timestamp, r.amount, r.delegator, r.level⟩) := by
  refine ⟨?_, ?_, rfl⟩
  · unfold getPageRows
    cases year with
    | none => exact pageSlice_strict _ _ _ hids
    | some y =>
        exact pageSlice_strict _ _ _
          (List.Pairwise.sublist (List.filter_sublist _) hids)
  · rintro y rfl r hr
    unfold getPageRows at hr
    have hmem : r ∈ sortRows (db.rows.filter (fun r => r.year == y)) :=
      (List.Sublist.subset
        ((List.take_sublist _ _).trans (List.drop_sublist _ _))) hr
    have : r ∈ db.rows.filter (fun r => r.year == y) :=
      (sortRows_perm _).mem_iff.mp hmem
    have := (List.mem_filter.mp this).2
    simpa using this

/-! ## C2 -/

/-- C2: the fetch window's start is the watermark clamped upward to the
genesis floor.  If the store is empty (the watermark aggregate returns the
zero-time sentinel with level 0) or the watermark is earlier than the
genesis floor, the timestamp handed to `FetchDelegations` is exactly the
genesis floor; in particular an empty store starts at the genesis floor. -/
theorem syncSince_clamped (cfg : PollerConfig) (db : DB) :
    ((getLastSeen db).1 = 0 ∨ (getLastSeen db).1 < cfg.genesisStart →
      syncSince cfg db = cfg.genesisStart) ∧
    (db.rows = [] →
      getLastSeen db = (0, 0) ∧ syncSince cfg db = cfg.genesisStart) := by
  have hclamp : (getLastSeen db).1 = 0 ∨ (getLastSeen db).1 < cfg.genesisStart →
      syncSince cfg db = cfg.genesisStart := by
    intro h
    unfold syncSince clampSince
    rcases h with h | h
    · simp [h]
    · have hg : ¬cfg.genesisStart = 0 := by omega
      rw [if_pos (Or.inr ⟨hg, h⟩)]
  refine ⟨hclamp, fun hemp => ?_⟩
  have hz : getLastSeen db = (0, 0) := by simp [getLastSeen, hemp]
  exact ⟨hz, hclamp (Or.inl (by rw [hz]))⟩

/-! ## C3

`Poller.Run` decides "no sleep" by comparing `syncOnce`'s return value `n`
with `BatchSize` — and `n` is the number of rows that survived the
empty-address filter (`len(batch)`), not the number of events the upstream
fetch returned (`len(delegations)`).  A full fetch containing an
empty-address event therefore sleeps the full interval. -/

/-- C3 counterexample: with `batchSize = 2`, a fetch returning exactly
`batchSize` events one of which has an empty delegator address yields
`n = 1`, so the loop sleeps the full poll interval instead of looping
immediately, refuting "no sleep exactly when the number of events returned
by the upstream fetch equaled batchSize". -/
theorem fullFetch_still_sleeps_counterexample :
    ([⟨1, 10, 5, 100, "tz1a"⟩, ⟨2, 11, 6, 200, ""⟩] :
        List TzktDelegation).length = (2 : Nat) ∧
    syncOnceCount [⟨1, 10, 5, 100, "tz1a"⟩, ⟨2, 11, 6, 200, ""⟩] = 1 ∧
    sleepsAfterSuccess ⟨2, 15, 0, 120⟩
      (syncOnceCount [⟨1, 10, 5, 100, "tz1a"⟩, ⟨2, 11, 6, 200, ""⟩]) =
      true := by
  decide

/-- C3 (amended): the engine loops immediately with no sleep exactly when
the count `syncOnce` returns — the number of fetched events that survived
the empty-address filter — equals `batchSize`; a fetch returning fewer than
`batchSize` events, with a nonzero accepted count, sleeps the full poll
interval. -/
theorem success_sleep_decision (cfg : PollerConfig)
    (ds : List TzktDelegation) :
    (sleepsAfterSuccess cfg (syncOnceCount ds) = false ↔
      syncOnceCount ds = cfg.batchSize) ∧
    (ds.length < cfg.batchSize → 0 < syncOnceCount ds →
      sleepsAfterSuccess cfg (syncOnceCount ds) = true) := by
  have hle : syncOnceCount ds ≤ ds.length := by
    unfold syncOnceCount buildBatch
    split
    · simp
    · exact List.length_filterMap_le _ _
  constructor
  · simp [sleepsAfterSuccess]
  · intro h1 _
    simp only [sleepsAfterSuccess, Bool.not_eq_true', beq_eq_false_iff_ne,
      ne_eq]
    omega

/-! ## C4 -/

theorem runLoop_cons (cfg : PollerConfig) (o : IterOutcome)
    (rest : List IterOutcome) (st : RunState) :
    runLoop cfg (o :: rest) st = runLoop cfg rest (runStep cfg st o) := rfl

/-- Invariant: if the current backoff and all recorded sleeps are below the
configured maximum and the poll interval is too, running any outcome
sequence keeps them below the maximum. -/
theorem runLoop_le_max (cfg : PollerConfig)
    (h : cfg.pollInterval ≤ cfg.maxBackoff) :
    ∀ (outcomes : List IterOutcome) (st : RunState),
    st.backoff ≤ cfg.maxBackoff →
    (∀ d ∈ st.sleeps, d ≤ cfg.maxBackoff) →
    (runLoop cfg outcomes st).backoff ≤ cfg.maxBackoff ∧
    ∀ d ∈ (runLoop cfg outcomes st).sleeps, d ≤ cfg.maxBackoff
  | [], _, hb, hs => ⟨hb, hs⟩
  | o :: rest, st, hb, hs => by
      rw [runLoop_cons]
      have hstep : (runStep cfg st o).backoff ≤ cfg.maxBackoff ∧
          ∀ d ∈ (runStep cfg st o).sleeps, d ≤ cfg.maxBackoff := by
        cases o with
        | fail =>
            refine ⟨?_, ?_⟩
            · simp only [runStep]
              split
              · exact min_le_right _ _
              · exact hb
            · intro d hd
              simp only [runStep, List.mem_append, List.mem_singleton] at hd
              rcases hd with hd | rfl
              · exact hs d hd
              · exact hb
        | success n =>
            refine ⟨by simpa [runStep] using h, ?_⟩
            intro d hd
            simp only [runStep] at hd
            split at hd
            · exact hs d hd
            · simp only [List.mem_append, List.mem_singleton] at hd
              rcases hd with hd | rfl
              · exact hs d hd
              · exact h
      exact runLoop_le_max cfg h rest (runStep cfg st o) hstep.1 hstep.2

/-- Every iteration outcome — failure or success — is followed by the next
iteration: the loop body never returns. -/
theorem runLoop_iterations (cfg : PollerConfig) :
    ∀ (outcomes : List IterOutcome) (st : RunState),
    (runLoop cfg outcomes st).iterations = st.iterations + outcomes.length
  | [], st => rfl
  | o :: rest, st => by
      rw [runLoop_cons, runLoop_iterations cfg rest]
      cases o <;> simp [runStep] <;> omega

/-- C4: on a failed iteration the engine sleeps the current backoff and
retries, doubling the backoff (capped at the maximum) after each
consecutive failure; a success resets the backoff to the poll interval;
with poll interval 1s and cap 8s three consecutive failures sleep 1s, 2s,
4s; no sleep ever exceeds the cap (when the poll interval respects it);
and the loop processes every outcome — it never aborts on a failure. -/
theorem run_backoff_policy :
    (runLoop ⟨100, 1, 0, 8⟩ [.fail, .fail, .fail]
      (initRunState ⟨100, 1, 0, 8⟩)).sleeps = [1, 2, 4] ∧
    (∀ (cfg : PollerConfig) (outcomes : List IterOutcome),
      cfg.pollInterval ≤ cfg.maxBackoff →
      ∀ d ∈ (runLoop cfg outcomes (initRunState cfg)).sleeps,
        d ≤ cfg.maxBackoff) ∧
    (∀ (cfg : PollerConfig) (outcomes : List IterOutcome) (st : RunState),
      (runLoop cfg outcomes st).iterations =
        st.iterations + outcomes.length) ∧
    (∀ (cfg : PollerConfig) (st : RunState) (n : Nat),
      (runStep cfg st (.success n)).backoff = cfg.pollInterval) ∧
    (∀ (cfg : PollerConfig) (st : RunState),
      st.backoff < cfg.maxBackoff →
      (runStep cfg st .fail).backoff = min (st.backoff * 2) cfg.maxBackoff ∧
      (runStep cfg st .fail).sleeps = st.sleeps ++ [st.backoff]) := by
    refine ⟨by decide, ?_, runLoop_iterations, fun _ _ _ => rfl, ?_⟩
    · intro cfg outcomes hpm
      exact (runLoop_le_max cfg hpm outcomes (initRunState cfg) hpm
        (by simp [initRunState])).2
    · intro cfg st hlt
      exact ⟨by simp [runStep, hlt], rfl⟩

/-! ## C5

The retry loop in `FetchDelegations` retries on network-level errors and on
`429` responses only; any other response — including `5xx` — `break`s out of
the loop on the spot and, when its status is `≥ 300`, is reported as an
unexpected-status fetch error without any further attempt. -/

/-- How `FetchDelegations` disposes of the attempt result the loop stopped
at: a surviving network error is a request failure, a status `≥ 300` an
unexpected-status error, a malformed payload a decode error, anything else
a success. -/
def finishResult : AttemptResult → FetchResult
  | .netErr => .netFail
  | .resp s body =>
      if 300 ≤ s then .statusErr s
      else match body with
        | none => .decodeErr
        | some ds => .ok ds

/-- Closed form of the three-attempt retry loop: it advances past an
attempt exactly when the attempt was retryable (network error or `429`),
and the attempt the loop stops at is disposed of by `finishResult`. -/
theorem fetchModel_eq (f : Nat → AttemptResult) :
    fetchDelegationsModel f =
      if retryable (f 0) = true then
        if retryable (f 1) = true then ⟨finishResult (f 2), 3, [1, 2]⟩
        else ⟨finishResult (f 1), 2, [1]⟩
      else ⟨finishResult (f 0), 1, []⟩ := by
  rcases h0 : f 0 with _ | ⟨s0, b0⟩
  case _ =>
    rcases h1 : f 1 with _ | ⟨s1, b1⟩
    case _ =>
      rcases h2 : f 2 with _ | ⟨s2, b2⟩
      case _ =>
        simp [fetchDelegationsModel, fetchAux, h0, h1, h2, retryable,
          finishResult]
      case _ =>
        by_cases hs2 : s2 = 429
        · simp [fetchDelegationsModel, fetchAux, h0, h1, h2, retryable, hs2,
            finishResult]
        · by_cases hge : 300 ≤ s2
          · simp [fetchDelegationsModel, fetchAux, h0, h1, h2, retryable,
              hs2, hge, finishResult]
          · cases b2 <;>
              simp [fetchDelegationsModel, fetchAux, h0, h1, h2, retryable,
                hs2, hge, finishResult]
    case _ =>
      by_cases hs1 : s1 = 429
      · rcases h2 : f 2 with _ | ⟨s2, b2⟩
        case _ =>
          simp [fetchDelegationsModel, fetchAux, h0, h1, h2, retryable, hs1,
            finishResult]
        case _ =>
          by_cases hs2 : s2 = 429
          · simp [fetchDelegationsModel, fetchAux, h0, h1, h2, retryable,
              hs1, hs2, finishResult]
          · by_cases hge : 300 ≤ s2
            · simp [fetchDelegationsModel, fetchAux, h0, h1, h2, retryable,
                hs1, hs2, hge, finishResult]
            · cases b2 <;>
                simp [fetchDelegationsModel, fetchAux, h0, h1, h2, retryable,
                  hs1, hs2, hge, finishResult]
      · by_cases hge : 300 ≤ s1
        · simp [fetchDelegationsModel, fetchAux, h0, h1, retryable, hs1,
            hge, finishResult]
        · cases b1 <;>
            simp [fetchDelegationsModel, fetchAux, h0, h1, retryable, hs1,
              hge, finishResult]
  case _ =>
    by_cases hs0 : s0 = 429
    · rcases h1 : f 1 with _ | ⟨s1, b1⟩
      case _ =>
        rcases h2 : f 2 with _ | ⟨s2, b2⟩
        case _ =>
          simp [fetchDelegationsModel, fetchAux, h0, h1, h2, retryable, hs0,
            finishResult]
        case _ =>
          by_cases hs2 : s2 = 429
          · simp [fetchDelegationsModel, fetchAux, h0, h1, h2, retryable,
              hs0, hs2, finishResult]
          · by_cases hge : 300 ≤ s2
            · simp [fetchDelegationsModel, fetchAux, h0, h1, h2, retryable,
                hs0, hs2, hge, finishResult]
            · cases b2 <;>
                simp [fetchDelegationsModel, fetchAux, h0, h1, h2,
                  retryable, hs0, hs2, hge, finishResult]
      case _ =>
        by_cases hs1 : s1 = 429
        · rcases h2 : f 2 with _ | ⟨s2, b2⟩
          case _ =>
            simp [fetchDelegationsModel, fetchAux, h0, h1, h2, retryable,
              hs0, hs1, finishResult]
          case _ =>
            by_cases hs2 : s2 = 429
            · simp [fetchDelegationsModel, fetchAux, h0, h1, h2, retryable,
                hs0, hs1, hs2, finishResult]
            · by_cases hge : 300 ≤ s2
              · simp [fetchDelegationsModel, fetchAux, h0, h1, h2,
                  retryable, hs0, hs1, hs2, hge, finishResult]
              · cases b2 <;>
                  simp [fetchDelegationsModel, fetchAux, h0, h1, h2,
                    retryable, hs0, hs1, hs2, hge, finishResult]
        · by_cases hge : 300 ≤ s1
          · simp [fetchDelegationsModel, fetchAux, h0, h1, retryable, hs0,
              hs1, hge, finishResult]
          · cases b1 <;>
              simp [fetchDelegationsModel, fetchAux, h0, h1, retryable,
                hs0, hs1, hge, finishResult]
    · by_cases hge : 300 ≤ s0
      · simp [fetchDelegationsModel, fetchAux, h0, retryable, hs0, hge,
          finishResult]
      · cases b0 <;>
          simp [fetchDelegationsModel, fetchAux, h0, retryable, hs0, hge,
            finishResult]

/-- The attempt stream refuting C5: the first HTTP attempt returns status
500 with a well-formed body; every later attempt would succeed with 200. -/
def attempts5xx : Nat → AttemptResult := fun k =>
  if k = 0 then .resp 500 (some []) else .resp 200 (some [])

/-- C5 counterexample: a `500` response ends the retry loop after a single
attempt and is reported as a fetch error — it is not retried, although the
next attempt would have succeeded.  This refutes "transient upstream
errors — network-level failures, 429 responses, and 5xx responses — are
retried up to the retry ceiling". -/
theorem fiveHundred_not_retried_counterexample :
    (fetchDelegationsModel attempts5xx).attempts = 1 ∧
    (fetchDelegationsModel attempts5xx).result = .statusErr 500 ∧
    (fetchDelegationsModel attempts5xx).sleeps = [] ∧
    attempts5xx 1 = .resp 200 (some []) := by
  decide

/-- C5 (amended): within a single `FetchDelegations` call, network-level
failures and `429` responses — and only those — are retried, up to the
ceiling of 3 attempts, with exponential backoff starting at 1 second and
doubling each attempt; a success or any other HTTP status (`5xx` included)
ends the retry loop at once, and an HTTP status `≥ 300` on the attempt the
loop stopped at is reported as a fetch error to the caller. -/
theorem fetch_retry_policy (f : Nat → AttemptResult) :
    (1 ≤ (fetchDelegationsModel f).attempts ∧
      (fetchDelegationsModel f).attempts ≤ 3) ∧
    (∀ k, k + 1 < (fetchDelegationsModel f).attempts →
      retryable (f k) = true) ∧
    (retryable (f ((fetchDelegationsModel f).attempts - 1)) = true →
      (fetchDelegationsModel f).attempts = 3) ∧
    (fetchDelegationsModel f).sleeps =
      List.take ((fetchDelegationsModel f).attempts - 1) [1, 2] ∧
    (∀ (s : Nat) (body : Option (List TzktDelegation)),
      f ((fetchDelegationsModel f).attempts - 1) = .resp s body →
      300 ≤ s → (fetchDelegationsModel f).result = .statusErr s) ∧
    ((∀ k, k < 3 → retryable (f k) = true) →
      (fetchDelegationsModel f).result = .netFail ∨
      (fetchDelegationsModel f).result = .statusErr 429) := by
  have he := fetchModel_eq f
  by_cases hr0 : retryable (f 0) = true
  · by_cases hr1 : retryable (f 1) = true
    · rw [he, if_pos hr0, if_pos hr1]
      dsimp only
      refine ⟨by omega, ?_, fun _ => rfl, rfl, ?_, ?_⟩
      · intro k hk
        have : k = 0 ∨ k = 1 := by omega
        rcases this with rfl | rfl
        · exact hr0
        · exact hr1
      · intro s body hf hge
        simp only [show (3 : Nat) - 1 = 2 from rfl] at hf
        simp [hf, finishResult, hge]
      · intro hall
        have h2 := hall 2 (by omega)
        cases hf2 : f 2 with
        | netErr => simp [hf2, finishResult]
        | resp s2 b2 =>
            rw [hf2] at h2
            simp only [retryable, beq_iff_eq] at h2
            simp [hf2, finishResult, h2]
    · rw [he, if_pos hr0, if_neg hr1]
      dsimp only
      refine ⟨by omega, ?_, fun h => absurd h hr1, rfl, ?_, ?_⟩
      · intro k hk
        have : k = 0 := by omega
        subst this
        exact hr0
      · intro s body hf hge
        simp only [show (2 : Nat) - 1 = 1 from rfl] at hf
        simp [hf, finishResult, hge]
      · intro hall
        exact absurd (hall 1 (by omega)) hr1
  · rw [he, if_neg hr0]
    dsimp only
    refine ⟨by omega, ?_, fun h => absurd h hr0, rfl, ?_, ?_⟩
    · intro k hk
      omega
    · intro s body hf hge
      simp only [show (1 : Nat) - 1 = 0 from rfl] at hf
      simp [hf, finishResult, hge]
    · intro hall
      exact absurd (hall 0 (by omega)) hr0

/-! ## C9, C10 -/

/-- C9: a present `year` parameter that does not parse or is below the
genesis year 2018 is rejected with a client error before any storage access
(the outcome carries no store query); likewise a present `page` parameter
that does not parse or is below 1; a valid request queries storage with the
fixed page size 50 and offset `(page-1)*50`. -/
theorem handler_validation (db : DB) (yearParam pageParam : String) :
    ((¬yearParam = "" ∧ (goAtoi yearParam = none ∨
        ∃ y, goAtoi yearParam = some y ∧ y < 2018)) →
      handleDelegations db yearParam pageParam =
        .badRequest "invalid year") ∧
    ((¬pageParam = "" ∧ (goAtoi pageParam = none ∨
        ∃ p, goAtoi pageParam = some p ∧ p < 1)) →
      ∃ m, handleDelegations db yearParam pageParam = .badRequest m) ∧
    (∀ y p : Int, goAtoi yearParam = some y → 2018 ≤ y →
      goAtoi pageParam = some p → 1 ≤ p →
      ¬yearParam = "" → ¬pageParam = "" →
      handleDelegations db yearParam pageParam =
        .ok (some y) 50 ((p - 1) * 50).toNat
          (some (getPage db (some y) 50 ((p - 1) * 50).toNat))) := by
  refine ⟨?_, ?_, ?_⟩
  · rintro ⟨hne, hbad⟩
    rcases hbad with hnone | ⟨y, hy, hlt⟩
    · simp [handleDelegations, hne, hnone]
    · simp [handleDelegations, hne, hy, hlt]
  · rintro ⟨hne, hbad⟩
    have hpage : ∀ year : Option Int,
        (match (if pageParam = "" then (Except.ok 1 : Except String Int)
          else match goAtoi pageParam with
            | none => .error "invalid page"
            | some p => if p ≤ 0 then .error "invalid page" else .ok p) with
          | .error m => (HandlerOutcome.badRequest m)
          | .ok page =>
              .ok year 50 (((page - 1) * 50).toNat)
                (some (getPage db year 50 (((page - 1) * 50).toNat)))) =
          .badRequest "invalid page" := by
      intro year
      rcases hbad with hnone | ⟨p, hp, hlt⟩
      · simp [hne, hnone]
      · simp [hne, hp, show p ≤ 0 by omega]
    by_cases hy : yearParam = ""
    · exact ⟨"invalid page", by simpa [handleDelegations, hy] using hpage none⟩
    · cases hg : goAtoi yearParam with
      | none => exact ⟨"invalid year", by simp [handleDelegations, hy, hg]⟩
      | some y =>
          by_cases hlt : y < 2018
          · exact ⟨"invalid year", by simp [handleDelegations, hy, hg, hlt]⟩
          · exact ⟨"invalid page",
              by simpa [handleDelegations, hy, hg, hlt] using hpage (some y)⟩
  · intro y p hy hge hp hpge hney hnep
    simp [handleDelegations, hney, hnep, hy, hp,
      show ¬y < 2018 by omega, show ¬p ≤ 0 by omega]

/-- C10: an absent `page` parameter behaves exactly as `page=1` (storage
offset 0); with an absent `year` no year filter is applied (every
successful outcome queries with no year); and the `data` field of every
successful outcome is an allocated array — never the JSON `null`. -/
theorem handler_defaults (db : DB) (yearParam : String) :
    handleDelegations db yearParam "" = handleDelegations db yearParam "1" ∧
    handleDelegations db "" "" = .ok none 50 0 (some (getPage db none 50 0)) ∧
    (∀ (pageParam : String) (y : Option Int) (l o : Nat)
        (d : Option (List Delegation)),
      handleDelegations db "" pageParam = .ok y l o d → y = none) ∧
    (∀ (pageParam : String) (y : Option Int) (l o : Nat)
        (d : Option (List Delegation)),
      handleDelegations db yearParam pageParam = .ok y l o d →
      ¬d = none) := by
  have hone : goAtoi "1" = some 1 := by decide
  refine ⟨?_, ?_, ?_, ?_⟩
  · by_cases hy : yearParam = ""
    · simp [handleDelegations, hy, hone]
    · cases hg : goAtoi yearParam with
      | none => simp [handleDelegations, hy, hg]
      | some y =>
          by_cases hlt : y < 2018 <;>
            simp [handleDelegations, hy, hg, hlt, hone]
  · simp [handleDelegations]
  · intro pageParam y l o d h
    simp only [handleDelegations] at h
    repeat' split at h
    all_goals (try cases h)
    all_goals simp_all
  · intro pageParam y l o d h
    simp only [handleDelegations] at h
    repeat' split at h
    all_goals (try cases h)
    all_goals simp_all

/-! ## Witnesses -/

def wFailNever : InsertDelegation → Bool := fun _ => false

def wDbC1 : DB := ⟨[⟨0, 1, 100, 5, "tz1a", 10, 1⟩], 1⟩

def wBatchC1 : List InsertDelegation :=
  [⟨1, 100, 5, "tz1a", 10⟩, ⟨2, 100, 6, "tz1b", 11⟩]

/-- Witness for C1 at a store already holding `tzkt_id = 1` and a batch
containing that id plus a fresh one. -/
theorem bulkInsert_idempotent_witness :
    (bulkInsert wDbC1 wBatchC1 wFailNever).ok = true ∧
    (bulkInsert (bulkInsert wDbC1 wBatchC1 wFailNever).db wBatchC1
        wFailNever).db =
      (bulkInsert wDbC1 wBatchC1 wFailNever).db :=
  ⟨(bulkInsert_idempotent wDbC1 wBatchC1 wFailNever (by decide)).1,
   (bulkInsert_idempotent wDbC1 wBatchC1 wFailNever (by decide)).2.1⟩

def wCfgC2 : PollerConfig := ⟨100, 15, 5, 120⟩

/-- Witness for C2 at the empty store with genesis floor 5. -/
theorem syncSince_clamped_witness :
    getLastSeen DB.empty = (0, 0) ∧ syncSince wCfgC2 DB.empty = 5 :=
  (syncSince_clamped wCfgC2 DB.empty).2 rfl

def wDsC3 : List TzktDelegation := [⟨1, 10, 5, 100, "tz1a"⟩]

/-- Witness for the amended C3: one accepted event with `batchSize = 2`
sleeps the full interval. -/
theorem success_sleep_decision_witness :
    sleepsAfterSuccess ⟨2, 15, 0, 120⟩ (syncOnceCount wDsC3) = true :=
  (success_sleep_decision ⟨2, 15, 0, 120⟩ wDsC3).2 (by decide) (by decide)

def wCfgC4 : PollerConfig := ⟨100, 1, 0, 8⟩

/-- Witness for C4: three failures with poll interval 1 and cap 8 run three
iterations, and the recorded sleep of 4 respects the cap. -/
theorem run_backoff_policy_witness :
    (runLoop wCfgC4 [.fail, .fail, .fail]
      (initRunState wCfgC4)).iterations = 0 + 3 ∧
    (4 : Nat) ≤ 8 :=
  ⟨run_backoff_policy.2.2.1 wCfgC4 [.fail, .fail, .fail]
      (initRunState wCfgC4),
   run_backoff_policy.2.1 wCfgC4 [.fail, .fail, .fail] (by decide) 4
      (by decide)⟩

def wAttemptsC5 : Nat → AttemptResult := fun _ => .resp 429 none

/-- Witness for the amended C5 at an attempt stream of endless `429`s: both
backoff sleeps happen and the loop ends in the `429` status error. -/
theorem fetch_retry_policy_witness :
    (fetchDelegationsModel wAttemptsC5).sleeps =
      List.take ((fetchDelegationsModel wAttemptsC5).attempts - 1) [1, 2] ∧
    ((fetchDelegationsModel wAttemptsC5).result = .netFail ∨
      (fetchDelegationsModel wAttemptsC5).result = .statusErr 429) :=
  ⟨(fetch_retry_policy wAttemptsC5).2.2.2.1,
   (fetch_retry_policy wAttemptsC5).2.2.2.2.2 (fun _ _ => rfl)⟩

def wFailC6 : InsertDelegation → Bool := fun _ => true

def wDbC6 : DB := ⟨[⟨0, 1, 100, 5, "tz1a", 10, 1⟩], 1⟩

def wBatchC6 : List InsertDelegation := [⟨2, 100, 6, "tz1b", 11⟩]

/-- Witness for C6: the empty batch is a transactionless no-op, and a batch
whose row insert fails leaves the store unchanged. -/
theorem bulkInsert_empty_noop_and_atomic_witness :
    bulkInsert wDbC6 [] wFailC6 = ⟨wDbC6, true, false⟩ ∧
    (bulkInsert wDbC6 wBatchC6 wFailC6).db = wDbC6 :=
  ⟨(bulkInsert_empty_noop_and_atomic wDbC6 wFailC6).1,
   (bulkInsert_empty_noop_and_atomic wDbC6 wFailC6).2 wBatchC6 (by decide)⟩

def wDsC7 : List TzktDelegation :=
  [⟨1, 10, 5, 100, "tz1a"⟩, ⟨2, 11, 6, 200, ""⟩]

def wRowC7 : PersistedRow := ⟨0, 1, 5, 100, "tz1a", 10, 1⟩

/-- Witness for C7: after syncing a fetch containing an empty-address
event into the empty store, the one persisted row has a non-empty
delegator. -/
theorem emptyDelegator_never_persisted_witness :
    ¬wRowC7.delegator = "" :=
  (emptyDelegator_never_persisted wDsC7 DB.empty wFailNever
    (by simp [DB.empty])).2 wRowC7 (by decide)

def wDbC8 : DB :=
  ⟨[⟨0, 1, 9, 5, "tz1a", 10, 2018⟩, ⟨1, 2, 9, 6, "tz1b", 11, 2018⟩,
    ⟨2, 3, 5, 7, "tz1c", 12, 2019⟩], 3⟩

def wRowC8 : PersistedRow := ⟨2, 3, 5, 7, "tz1c", 12, 2019⟩

/-- Witness for C8 at a store with an equal-timestamp pair: the unfiltered
page is strictly ordered, and the 2019-filtered page only returns the
2019 row. -/
theorem getPage_ordered_and_filtered_witness :
    (getPageRows wDbC8 none 50 0).Pairwise
      (fun a b => b.timestamp < a.timestamp ∨
        (a.timestamp = b.timestamp ∧ b.id < a.id)) ∧
    wRowC8.year = 2019 :=
  ⟨(getPage_ordered_and_filtered wDbC8 none 50 0 (by decide)).1,
   (getPage_ordered_and_filtered wDbC8 (some 2019) 50 0 (by decide)).2.1
     2019 rfl wRowC8 (by decide)⟩

/-- Witness for C9: `year=2017` and `page=0` are rejected, and
`year=2019&page=2` queries with limit 50 and offset 50. -/
theorem handler_validation_witness :
    handleDelegations DB.empty "2017" "1" = .badRequest "invalid year" ∧
    (∃ m, handleDelegations DB.empty "2018" "0" = .badRequest m) ∧
    handleDelegations DB.empty "2019" "2" =
      .ok (some 2019) 50 (((2 : Int) - 1) * 50).toNat
        (some (getPage DB.empty (some 2019) 50
          (((2 : Int) - 1) * 50).toNat)) :=
  ⟨(handler_validation DB.empty "2017" "1").1
      ⟨by decide, Or.inr ⟨2017, by decide, by decide⟩⟩,
   (handler_validation DB.empty "2018" "0").2.1
      ⟨by decide, Or.inr ⟨0, by decide, by decide⟩⟩,
   (handler_validation DB.empty "2019" "2").2.2 2019 2 (by decide)
      (by decide) (by decide) (by decide) (by decide) (by decide)⟩

/-- Witness for C10 at the empty store: absent `page` equals `page=1`, the
default query is unfiltered with offset 0, and its `data` is an allocated
array. -/
theorem handler_defaults_witness :
    handleDelegations DB.empty "" "" = handleDelegations DB.empty "" "1" ∧
    handleDelegations DB.empty "" "" =
      .ok none 50 0 (some (getPage DB.empty none 50 0)) ∧
    ¬(some (getPage DB.empty none 50 0) : Option (List Delegation)) =
      none :=
  ⟨(handler_defaults DB.empty "").1,
   (handler_defaults DB.empty "").2.1,
   (handler_defaults DB.empty "").2.2.2 "" none 50 0 _
     (handler_defaults DB.empty "").2.1⟩

end TezosDelegation
